import Mathlib

/-!
# Verification of the nrf-rc-link protocol core

A shallow embedding of the RC link protocol layer: the CRC-8 checksum
(`src/crc.c`), the packet codec (`src/packet.c`), and the link session /
state tracker (`src/nrf_rc_driver.c`).  Frames are modelled as lists of
bytes (`Nat` values below 256), mirroring the packed 32-byte wire layout
`version, type, sequence, flags, payload_len, payload[26], crc8`.
Machine integers are modelled as `Nat` with explicit `% 2^8` / `% 2^32`
where the C arithmetic wraps.
-/

set_option maxRecDepth 100000
set_option maxHeartbeats 2000000

namespace NrfRcLink

/-! ## Configuration constants (src/include/config.h) -/

def RC_PROTOCOL_VERSION : Nat := 1

def RC_MAX_PAYLOAD_SIZE : Nat := 26

def RC_LINK_TIMEOUT_MS : Nat := 1000

def RC_LINK_LOSS_THRESHOLD : Nat := 10

def UINT32_MAX : Nat := 4294967295

def U32 : Nat := 4294967296

/-- Packet types (`rc_packet_type_t`). -/
def RC_PKT_COMMAND : Nat := 1

def RC_PKT_TELEMETRY : Nat := 2

/-! ## CRC-8 (src/crc.c, `rc_crc8_calculate`)

One inner-loop iteration of the bit-by-bit CRC: shift the 8-bit
accumulator left, xoring in the polynomial 0x07 when the top bit was
set.  `rc_crc8_calculate` folds `crc ^= byte; 8 rounds` over the data
with initial value 0. -/

def crc8_round (c : Nat) : Nat :=
  if 128 ≤ c then ((c * 2) % 256) ^^^ 7 else (c * 2) % 256

def crc8_step (c b : Nat) : Nat :=
  crc8_round^[8] (c ^^^ b)

def rc_crc8_calculate (data : List Nat) : Nat :=
  data.foldl crc8_step 0

/-- Explicit inverse of one CRC round, used to show the round is
injective on bytes. -/
def crc8_round_inv (c : Nat) : Nat :=
  if c % 2 = 1 then (c ^^^ 7) / 2 + 128 else c / 2

/-! ## Byte lists -/

/-- Every entry is a byte. -/
def Bytes (l : List Nat) : Prop := ∀ b ∈ l, b < 256

instance : DecidablePred Bytes := fun l => by
  unfold Bytes; infer_instance

/-- `memcpy(&l[off], data, data.length)`: overwrite `l` starting at
offset `off` with the bytes of `data`. -/
def writeBytes : List Nat → Nat → List Nat → List Nat
  | l, _, [] => l
  | l, off, b :: rest => writeBytes (l.set off b) (off + 1) rest

/-- Flip bit `k` of byte `i` of a frame. -/
def flipBit (f : List Nat) (i k : Nat) : List Nat :=
  f.set i ((f.getD i 0) ^^^ 2 ^ k)

/-! ## Packet codec (src/packet.c)

A packet is the 32-byte wire image.  Field accesses of the packed C
struct become list indexing: `version = f[0]`, `type = f[1]`,
`sequence = f[2]`, `flags = f[3]`, `payload_len = f[4]`,
`payload[i] = f[5+i]`, and the `crc8` struct field is `f[31]`.
`src/packet.c` stores and reads the checksum at `payload[payload_len]`,
i.e. byte `5 + payload_len`, directly after the used payload.  The
`rc_crc8` the codec calls is the CRC-8 of `src/crc.c`
(`rc_crc8_calculate`), the only checksum in the repository. -/

/-- `rc_packet_init`: zero the 32-byte packet, then set version, type,
sequence and flags (payload_len stays 0 from the memset). -/
def rc_packet_init (ptype seq : Nat) : List Nat :=
  [RC_PROTOCOL_VERSION, ptype % 256, seq % 256, 0, 0] ++ List.replicate 27 0

/-- `rc_packet_finalize`: record `payload_len` and store the CRC over
header plus `payload_len` payload bytes at `payload[payload_len]`. -/
def rc_packet_finalize (pkt : List Nat) (payload_len : Nat) : List Nat :=
  let p := pkt.set 4 (payload_len % 256)
  p.set (5 + payload_len % 256)
    (rc_crc8_calculate (p.take (5 + payload_len % 256)))

/-- `rc_packet_validate`: reject on version mismatch, then on
`payload_len > RC_MAX_PAYLOAD_SIZE - sizeof(header) - 1` (the C
expression evaluates to 20), then compare the recomputed CRC with the
byte stored at `payload[payload_len]`. -/
def rc_packet_validate (f : List Nat) : Bool :=
  if f.getD 0 0 ≠ RC_PROTOCOL_VERSION then false
  else if RC_MAX_PAYLOAD_SIZE - 5 - 1 < f.getD 4 0 then false
  else rc_crc8_calculate (f.take (5 + f.getD 4 0)) == f.getD (5 + f.getD 4 0) 0

/-- `rc_encode_payload`: init header, `memcpy` the payload bytes in,
finalize (writes `payload_len` and the checksum). -/
def rc_encode_payload (ptype : Nat) (payload : List Nat) (payload_len seq : Nat) :
    List Nat :=
  rc_packet_finalize (writeBytes (rc_packet_init ptype seq) 5 (payload.take payload_len))
    payload_len

/-- `rc_decode_payload`: validate, require `payload_len` to equal the
caller's expected length, then copy out the payload prefix. -/
def rc_decode_payload (f : List Nat) (expected_len : Nat) : Option (List Nat) :=
  if !rc_packet_validate f then none
  else if f.getD 4 0 ≠ expected_len then none
  else some ((f.drop 5).take expected_len)

example : rc_crc8_calculate [] = 0 := by decide

example : rc_decode_payload (rc_encode_payload 1 [10, 20, 30] 3 7) 3 =
    some [10, 20, 30] := by decide

/-! ## Link session (src/nrf_rc_driver.c)

The session state mirrors `struct rc_link` (minus the raw hardware
handles).  Null pointer arguments of the C API are modelled by explicit
`Bool` flags (`linkNull`, `outNull`); the radio transceiver outcome of
one poll is the `RadioPoll` input; the monotonic millisecond clock is
the `now : Nat` input.  `uint8` fields wrap at 256 and `uint32` fields
at `U32` exactly where the C arithmetic wraps. -/

/-- Status codes (`rc_status_t`). -/
inductive RcStatus where
  | RC_OK
  | RC_ERROR_INVALID_PARAM
  | RC_ERROR_TIMEOUT
  | RC_ERROR_NO_DATA
  | RC_ERROR_CRC_FAIL
  | RC_ERROR_VERSION_MISMATCH
  | RC_ERROR_HARDWARE
  | RC_ERROR_NOT_INITIALIZED
  deriving DecidableEq, Repr

export RcStatus (RC_OK RC_ERROR_INVALID_PARAM RC_ERROR_TIMEOUT RC_ERROR_NO_DATA
  RC_ERROR_CRC_FAIL RC_ERROR_VERSION_MISMATCH RC_ERROR_HARDWARE
  RC_ERROR_NOT_INITIALIZED)

/-- Link role (`rc_role_t`). -/
inductive RcRole where
  | RC_ROLE_GROUND
  | RC_ROLE_AIRCRAFT
  deriving DecidableEq, Repr

/-- Statistics (`rc_stats_t`), all `uint32` except the `uint8` quality. -/
structure RcStats where
  packets_sent : Nat
  packets_received : Nat
  packets_missed : Nat
  crc_errors : Nat
  version_mismatches : Nat
  link_quality : Nat
  deriving DecidableEq, Repr

/-- Protocol state of `struct rc_link`. -/
structure RcLink where
  initialized : Bool
  role : RcRole
  tx_sequence : Nat
  rx_sequence_last : Nat
  last_rx_time : Nat
  link_active : Bool
  consecutive_missed : Nat
  failsafe_command : List Nat
  failsafe_active : Bool
  tx_packet : List Nat
  rx_packet : List Nat
  stats : RcStats
  deriving DecidableEq, Repr

/-- Outcome of polling the nRF24 for one frame: nothing pending,
hardware receive failure, or a frame of `rxLen` reported bytes. -/
inductive RadioPoll where
  | empty
  | hwFail
  | frame (bytes : List Nat) (rxLen : Nat)
  deriving DecidableEq, Repr

/-- Result of a receive-path call: status, next state, delivered payload. -/
structure RcRecv where
  status : RcStatus
  link : RcLink
  out : Option (List Nat)
  deriving DecidableEq, Repr

/-- Result of a state-only call. -/
structure RcStep where
  status : RcStatus
  link : RcLink
  deriving DecidableEq, Repr

/-- `uint32` increment. -/
def incU32 (x : Nat) : Nat := (x + 1) % U32

/-- Serialized default failsafe command `RC_FAILSAFE_COMMAND`:
channels `{1024,1024,0,1024,1024,1024,1024,1024}` little-endian,
switches 0, mode 0 (18 bytes). -/
def RC_FAILSAFE_COMMAND : List Nat :=
  [0, 4, 0, 4, 0, 0, 0, 4, 0, 4, 0, 4, 0, 4, 0, 4, 0, 0]

/-- Session state established by `rc_link_init` (after the `memset` and
the explicit field assignments; `link_active` is set to `false`). -/
def rc_link_init_state : RcLink where
  initialized := true
  role := RcRole.RC_ROLE_GROUND
  tx_sequence := 0
  rx_sequence_last := 0
  last_rx_time := UINT32_MAX
  link_active := false
  consecutive_missed := 0
  failsafe_command := RC_FAILSAFE_COMMAND
  failsafe_active := false
  tx_packet := List.replicate 32 0
  rx_packet := List.replicate 32 0
  stats := ⟨0, 0, 0, 0, 0, 0⟩

/-- `rc_link_get_time_since_rx`: `UINT32_MAX` when never received,
otherwise the wrapping `uint32` difference `now - last_rx_time`. -/
def rc_link_get_time_since_rx (linkNull : Bool) (s : RcLink) (now : Nat) : Nat :=
  if linkNull || !s.initialized || s.last_rx_time == UINT32_MAX then UINT32_MAX
  else (now % U32 + U32 - s.last_rx_time % U32) % U32

/-- `update_link_state`: recompute `link_active` from the timeout and
missed-count triggers; on a lost-to-active transition reset
`consecutive_missed`. -/
def update_link_state (s : RcLink) (now : Nat) : RcLink :=
  let time_since_rx := rc_link_get_time_since_rx false s now
  let was_active := s.link_active
  let timeout : Bool := decide (time_since_rx ≠ UINT32_MAX ∧ RC_LINK_TIMEOUT_MS < time_since_rx)
  let sequence_gap : Bool := decide (RC_LINK_LOSS_THRESHOLD ≤ s.consecutive_missed)
  let s1 := { s with link_active := !timeout && !sequence_gap }
  if !was_active && s1.link_active then { s1 with consecutive_missed := 0 } else s1

/-- `calculate_link_quality`: 0 when nothing was sent, otherwise
`(uint8)(((sent - missed) * 100) / sent)` in wrapping `uint32`
arithmetic, then clamped from above at 100. -/
def calculate_link_quality (s : RcLink) : RcLink :=
  if s.stats.packets_sent = 0 then { s with stats.link_quality := 0 }
  else
    let total := s.stats.packets_sent % U32
    let lost := s.stats.packets_missed % U32
    let received := (total + U32 - lost) % U32
    let q := (received * 100 % U32 / total) % 256
    { s with stats.link_quality := if 100 < q then 100 else q }

/-- `rc_link_update`. -/
def rc_link_update (linkNull : Bool) (s : RcLink) (now : Nat) : RcStep :=
  if linkNull || !s.initialized then ⟨RC_ERROR_INVALID_PARAM, s⟩
  else ⟨RC_OK, calculate_link_quality (update_link_state s now)⟩

/-- `receive_and_decode`: poll the radio, stash the frame in the RX
buffer, validate size, CRC (recomputed over `5 + payload_len` bytes,
compared with the `crc8` field at byte 31), version and type, then do
the sequence-gap accounting and deliver the payload prefix. -/
def receive_and_decode (s : RcLink) (expected_type : Nat) (p : RadioPoll) : RcRecv :=
  match p with
  | RadioPoll.empty => ⟨RC_ERROR_NO_DATA, s, none⟩
  | RadioPoll.hwFail => ⟨RC_ERROR_HARDWARE, s, none⟩
  | RadioPoll.frame b rxLen =>
    let s := { s with rx_packet := b }
    if rxLen < 5 + 1 then ⟨RC_ERROR_CRC_FAIL, s, none⟩
    else
      let plen := b.getD 4 0
      let crc_len := (5 + plen) % 256
      let expected_crc := rc_crc8_calculate (b.take crc_len)
      if b.getD 31 0 ≠ expected_crc then
        ⟨RC_ERROR_CRC_FAIL, { s with stats.crc_errors := incU32 s.stats.crc_errors }, none⟩
      else if b.getD 0 0 ≠ RC_PROTOCOL_VERSION then
        ⟨RC_ERROR_VERSION_MISMATCH,
          { s with stats.version_mismatches := incU32 s.stats.version_mismatches }, none⟩
      else if b.getD 1 0 ≠ expected_type then ⟨RC_ERROR_NO_DATA, s, none⟩
      else
        let s2 :=
          if s.last_rx_time ≠ UINT32_MAX then
            let expected_seq := (s.rx_sequence_last + 1) % 256
            let gap := (b.getD 2 0 + 256 - expected_seq) % 256
            if 0 < gap then
              { s with consecutive_missed := (s.consecutive_missed + gap) % 256,
                       stats := { s.stats with
                                  packets_missed := (s.stats.packets_missed + gap) % U32 } }
            else { s with consecutive_missed := 0 }
          else s
        ⟨RC_OK, { s2 with rx_sequence_last := b.getD 2 0 }, some ((b.drop 5).take plen)⟩

/-- `rc_link_receive_command` (aircraft): decode a command; on success
record the reception and clear the failsafe; on failure substitute the
stored failsafe command when the link is lost. -/
def rc_link_receive_command (linkNull : Bool) (s : RcLink) (cmdNull : Bool)
    (p : RadioPoll) (now : Nat) : RcRecv :=
  if linkNull || !s.initialized || cmdNull then ⟨RC_ERROR_INVALID_PARAM, s, none⟩
  else
    let s := { s with role := RcRole.RC_ROLE_AIRCRAFT }
    let r := receive_and_decode s RC_PKT_COMMAND p
    if r.status = RC_OK then
      ⟨RC_OK, { r.link with
                  last_rx_time := now % U32,
                  failsafe_active := false,
                  stats := { r.link.stats with
                               packets_received := incU32 r.link.stats.packets_received } },
        r.out⟩
    else if !r.link.link_active then
      ⟨RC_OK, { r.link with failsafe_active := true }, some r.link.failsafe_command⟩
    else ⟨r.status, r.link, none⟩

/-- `rc_link_receive_telemetry` (ground). -/
def rc_link_receive_telemetry (linkNull : Bool) (s : RcLink) (telemNull : Bool)
    (p : RadioPoll) (now : Nat) : RcRecv :=
  if linkNull || !s.initialized || telemNull then ⟨RC_ERROR_INVALID_PARAM, s, none⟩
  else
    let r := receive_and_decode s RC_PKT_TELEMETRY p
    if r.status = RC_OK then
      ⟨RC_OK, { r.link with
                  last_rx_time := now % U32,
                  stats := { r.link.stats with
                               packets_received := incU32 r.link.stats.packets_received } },
        r.out⟩
    else ⟨r.status, r.link, none⟩

/-- `encode_and_send`: bounds-check the length, build the TX frame in
the session buffer (header, payload, CRC-8 into the `crc8` field at
byte 31), then hand it to the transceiver (`txOk` is its verdict). -/
def encode_and_send (s : RcLink) (ptype : Nat) (payload : List Nat)
    (payload_len : Nat) (txOk : Bool) : RcStep :=
  if RC_MAX_PAYLOAD_SIZE < payload_len then ⟨RC_ERROR_INVALID_PARAM, s⟩
  else
    let p1 := ((((s.tx_packet.set 0 RC_PROTOCOL_VERSION).set 1 (ptype % 256)).set 2
      (s.tx_sequence % 256)).set 3 0).set 4 (payload_len % 256)
    let p2 := writeBytes p1 5 (payload.take payload_len)
    let crc_len := (5 + payload_len) % 256
    let p3 := p2.set 31 (rc_crc8_calculate (p2.take crc_len))
    let s1 := { s with tx_packet := p3 }
    if txOk then ⟨RC_OK, s1⟩ else ⟨RC_ERROR_HARDWARE, s1⟩

/-- `rc_link_send_command` (ground): encode-and-send 18 command bytes;
on success advance `tx_sequence` and the sent counter. -/
def rc_link_send_command (linkNull : Bool) (s : RcLink) (cmdNull : Bool)
    (command : List Nat) (txOk : Bool) : RcStep :=
  if linkNull || !s.initialized || cmdNull then ⟨RC_ERROR_INVALID_PARAM, s⟩
  else
    let s := { s with role := RcRole.RC_ROLE_GROUND }
    let r := encode_and_send s RC_PKT_COMMAND command 18 txOk
    if r.status = RC_OK then
      ⟨RC_OK, { r.link with
                  tx_sequence := (r.link.tx_sequence + 1) % 256,
                  stats := { r.link.stats with
                               packets_sent := incU32 r.link.stats.packets_sent } }⟩
    else r

/-- `rc_link_send_telemetry` (aircraft): 22 telemetry bytes. -/
def rc_link_send_telemetry (linkNull : Bool) (s : RcLink) (telemNull : Bool)
    (telemetry : List Nat) (txOk : Bool) : RcStep :=
  if linkNull || !s.initialized || telemNull then ⟨RC_ERROR_INVALID_PARAM, s⟩
  else
    let r := encode_and_send s RC_PKT_TELEMETRY telemetry 22 txOk
    if r.status = RC_OK then
      ⟨RC_OK, { r.link with
                  tx_sequence := (r.link.tx_sequence + 1) % 256,
                  stats := { r.link.stats with
                               packets_sent := incU32 r.link.stats.packets_sent } }⟩
    else r

/-- `rc_link_set_failsafe`. -/
def rc_link_set_failsafe (linkNull : Bool) (s : RcLink) (fsNull : Bool)
    (failsafe : List Nat) : RcStep :=
  if linkNull || !s.initialized || fsNull then ⟨RC_ERROR_INVALID_PARAM, s⟩
  else ⟨RC_OK, { s with failsafe_command := failsafe }⟩

/-- `rc_link_get_failsafe`. -/
def rc_link_get_failsafe (linkNull : Bool) (s : RcLink) (outNull : Bool) : RcRecv :=
  if linkNull || !s.initialized || outNull then ⟨RC_ERROR_INVALID_PARAM, s, none⟩
  else ⟨RC_OK, s, some s.failsafe_command⟩

/-! ## CRC-8 facts

The CRC round is a bijection on bytes (`crc8_round_inv` inverts it), so
the per-byte step is injective in the accumulator, and therefore the
checksum distinguishes any two equal-length inputs that differ in a
single byte. -/

lemma crc8_round_lt : ∀ c : Fin 256, crc8_round c.1 < 256 := by decide

lemma crc8_round_leftInv : ∀ c : Fin 256, crc8_round_inv (crc8_round c.1) = c.1 := by decide

lemma crc8_round_lt' {c : Nat} (h : c < 256) : crc8_round c < 256 :=
  crc8_round_lt ⟨c, h⟩

lemma crc8_round_inj {c1 c2 : Nat} (h1 : c1 < 256) (h2 : c2 < 256)
    (h : crc8_round c1 = crc8_round c2) : c1 = c2 := by
  have e1 := crc8_round_leftInv ⟨c1, h1⟩
  have e2 := crc8_round_leftInv ⟨c2, h2⟩
  simp only [] at e1 e2
  rw [← e1, ← e2, h]

lemma crc8_rounds_lt (n : Nat) {c : Nat} (h : c < 256) : crc8_round^[n] c < 256 := by
  induction n generalizing c with
  | zero => simpa using h
  | succ n ih =>
    rw [Function.iterate_succ_apply]
    exact ih (crc8_round_lt' h)

lemma crc8_rounds_inj (n : Nat) {c1 c2 : Nat} (h1 : c1 < 256) (h2 : c2 < 256)
    (hne : c1 ≠ c2) : crc8_round^[n] c1 ≠ crc8_round^[n] c2 := by
  induction n generalizing c1 c2 with
  | zero => simpa using hne
  | succ n ih =>
    rw [Function.iterate_succ_apply, Function.iterate_succ_apply]
    exact ih (crc8_round_lt' h1) (crc8_round_lt' h2)
      (fun h => hne (crc8_round_inj h1 h2 h))

lemma xor_lt_256 {a b : Nat} (ha : a < 256) (hb : b < 256) : a ^^^ b < 256 := by
  have h : a ^^^ b < 2 ^ 8 := Nat.xor_lt_two_pow (by simpa using ha) (by simpa using hb)
  simpa using h

lemma crc8_step_lt {c b : Nat} (hc : c < 256) (hb : b < 256) : crc8_step c b < 256 :=
  crc8_rounds_lt 8 (xor_lt_256 hc hb)

lemma crc8_step_inj {c1 c2 b : Nat} (h1 : c1 < 256) (h2 : c2 < 256) (hb : b < 256)
    (hne : c1 ≠ c2) : crc8_step c1 b ≠ crc8_step c2 b :=
  crc8_rounds_inj 8 (xor_lt_256 h1 hb) (xor_lt_256 h2 hb)
    (fun h => hne (Nat.xor_left_inj.mp h))

lemma crc8_step_inj_byte {c b1 b2 : Nat} (hc : c < 256) (hb1 : b1 < 256) (hb2 : b2 < 256)
    (hne : b1 ≠ b2) : crc8_step c b1 ≠ crc8_step c b2 :=
  crc8_rounds_inj 8 (xor_lt_256 hc hb1) (xor_lt_256 hc hb2)
    (fun h => hne (Nat.xor_right_inj.mp h))

lemma crc8_foldl_lt (l : List Nat) : ∀ {c : Nat}, c < 256 → Bytes l →
    l.foldl crc8_step c < 256 := by
  induction l with
  | nil => intro c hc _; simpa using hc
  | cons a l ih =>
    intro c hc hB
    have ha : a < 256 := hB a (List.mem_cons_self a l)
    have hB' : Bytes l := fun b hb => hB b (List.mem_cons_of_mem a hb)
    exact ih (crc8_step_lt hc ha) hB'

lemma crc8_foldl_inj (l : List Nat) : ∀ {c1 c2 : Nat}, c1 < 256 → c2 < 256 →
    Bytes l → c1 ≠ c2 → l.foldl crc8_step c1 ≠ l.foldl crc8_step c2 := by
  induction l with
  | nil => intro c1 c2 _ _ _ hne; simpa using hne
  | cons a l ih =>
    intro c1 c2 h1 h2 hB hne
    have ha : a < 256 := hB a (List.mem_cons_self a l)
    have hB' : Bytes l := fun b hb => hB b (List.mem_cons_of_mem a hb)
    exact ih (crc8_step_lt h1 ha) (crc8_step_lt h2 ha) hB' (crc8_step_inj h1 h2 ha hne)

/-- Replacing the byte at position `i` of the checksummed data with a
different byte always changes the CRC-8. -/
lemma crc8_set_ne (l : List Nat) : ∀ (i : Nat) {c b' : Nat}, c < 256 → Bytes l →
    i < l.length → b' < 256 → b' ≠ l.getD i 0 →
    (l.set i b').foldl crc8_step c ≠ l.foldl crc8_step c := by
  induction l with
  | nil => intro i c b' _ _ h; simp at h
  | cons a l ih =>
    intro i c b' hc hB hi hb' hne
    have ha : a < 256 := hB a (List.mem_cons_self a l)
    have hB' : Bytes l := fun b hb => hB b (List.mem_cons_of_mem a hb)
    cases i with
    | zero =>
      simp only [List.getD_cons_zero] at hne
      simp only [List.set_cons_zero, List.foldl_cons]
      exact crc8_foldl_inj l (crc8_step_lt hc hb') (crc8_step_lt hc ha) hB'
        (crc8_step_inj_byte hc hb' ha hne)
    | succ i =>
      simp only [List.getD_cons_succ] at hne
      simp only [List.set_cons_succ, List.foldl_cons]
      exact ih i (crc8_step_lt hc ha) hB' (by simpa using hi) hb' hne

lemma rc_crc8_set_ne (l : List Nat) (i : Nat) {b' : Nat} (hB : Bytes l)
    (hi : i < l.length) (hb' : b' < 256) (hne : b' ≠ l.getD i 0) :
    rc_crc8_calculate (l.set i b') ≠ rc_crc8_calculate l :=
  crc8_set_ne l i (by norm_num) hB hi hb' hne

/-! ## List and byte bookkeeping -/

lemma getD_set_ne (l : List Nat) {i j : Nat} (b d : Nat) (h : i ≠ j) :
    (l.set i b).getD j d = l.getD j d := by
  rw [List.getD_eq_getElem?_getD, List.getD_eq_getElem?_getD, List.getElem?_set_ne h]

lemma getD_set_self (l : List Nat) {i : Nat} (b d : Nat) (h : i < l.length) :
    (l.set i b).getD i d = b := by
  rw [List.getD_eq_getElem?_getD, List.getElem?_set_self h]
  rfl

lemma getD_take (l : List Nat) {n m : Nat} (d : Nat) (h : m < n) :
    (l.take n).getD m d = l.getD m d := by
  rw [List.getD_eq_getElem?_getD, List.getD_eq_getElem?_getD, List.getElem?_take, if_pos h]

lemma bytes_getD {l : List Nat} (h : Bytes l) {i : Nat} (hi : i < l.length) :
    l.getD i 0 < 256 := by
  rw [List.getD_eq_getElem?_getD, List.getElem?_eq_getElem hi]
  exact h _ (List.getElem_mem hi)

lemma bytes_set {l : List Nat} {b : Nat} (h : Bytes l) (hb : b < 256) (i : Nat) :
    Bytes (l.set i b) := by
  intro x hx
  rcases List.mem_or_eq_of_mem_set hx with hx' | rfl
  · exact h x hx'
  · exact hb

lemma bytes_take {l : List Nat} (h : Bytes l) (n : Nat) : Bytes (l.take n) :=
  fun x hx => h x (List.mem_of_mem_take hx)

/-- `rc_packet_validate` unfolded into its three conditions. -/
lemma rc_packet_validate_iff (f : List Nat) :
    rc_packet_validate f = true ↔
      f.getD 0 0 = 1 ∧ f.getD 4 0 ≤ 20 ∧
        rc_crc8_calculate (f.take (5 + f.getD 4 0)) = f.getD (5 + f.getD 4 0) 0 := by
  unfold rc_packet_validate RC_PROTOCOL_VERSION RC_MAX_PAYLOAD_SIZE
  split_ifs with h0 h4
  · simp only [Bool.false_eq_true, false_iff]
    rintro ⟨h, -⟩
    exact h0 h
  · simp only [Bool.false_eq_true, false_iff]
    rintro ⟨-, h, -⟩
    omega
  · push_neg at h0
    simp only [beq_iff_eq]
    constructor
    · intro h
      exact ⟨h0, by omega, h⟩
    · rintro ⟨-, -, h⟩
      exact h

/-! ## Concrete frames and auxiliary machinery for the claims -/

/-- A well-formed command frame as the driver's `encode_and_send` lays
it out: header, `payload`, zero tail, CRC-8 in the `crc8` field
(byte 31) over header plus payload. -/
def mkCommandFrame (seq : Nat) (payload : List Nat) : List Nat :=
  let body := [RC_PROTOCOL_VERSION, RC_PKT_COMMAND, seq % 256, 0, payload.length % 256] ++
    payload ++ List.replicate (26 - payload.length) 0
  body ++ [rc_crc8_calculate (body.take (5 + payload.length))]

/-- 18 arbitrary command payload bytes. -/
def cmdPayload18 : List Nat := List.replicate 18 7

/-- A frame whose stored `crc8` byte (0) differs from the recomputed
CRC over its header. -/
def badCrcFrame : List Nat := [1, 1, 0, 0, 0] ++ List.replicate 27 0

/-- A frame with a wrong protocol version and a wrong stored checksum. -/
def wrongVersionFrame : List Nat := [2, 1, 0, 0, 0] ++ List.replicate 27 0

/-- The link-quality formula as the specification words it:
`clamp(100 * (sent - missed) / sent, 0, 100)` when `sent > 0`, else 0,
in exact integer arithmetic. -/
def spec_link_quality (sent missed : Nat) : Int :=
  if sent = 0 then 0
  else max 0 (min 100 (100 * ((sent : Int) - (missed : Int)) / (sent : Int)))

/-- One public session operation together with its per-call inputs
(`argNull` models a null payload/output pointer). -/
inductive ApiCall where
  | sendCommand (argNull : Bool) (command : List Nat) (txOk : Bool)
  | receiveTelemetry (argNull : Bool) (p : RadioPoll) (now : Nat)
  | receiveCommand (argNull : Bool) (p : RadioPoll) (now : Nat)
  | sendTelemetry (argNull : Bool) (telemetry : List Nat) (txOk : Bool)
  | update (now : Nat)
  | setFailsafe (argNull : Bool) (failsafe : List Nat)
  | getFailsafe (argNull : Bool)
  deriving DecidableEq, Repr

/-- Whether the call passes a null payload/output pointer. -/
def ApiCall.argNullFlag : ApiCall → Bool
  | .sendCommand an _ _ => an
  | .receiveTelemetry an _ _ => an
  | .receiveCommand an _ _ => an
  | .sendTelemetry an _ _ => an
  | .update _ => false
  | .setFailsafe an _ => an
  | .getFailsafe an => an

/-- Run one public operation, keeping its status and the next state. -/
def callStep (linkNull : Bool) (s : RcLink) : ApiCall → RcStep
  | .sendCommand an c tx => rc_link_send_command linkNull s an c tx
  | .receiveTelemetry an p now =>
    let r := rc_link_receive_telemetry linkNull s an p now
    ⟨r.status, r.link⟩
  | .receiveCommand an p now =>
    let r := rc_link_receive_command linkNull s an p now
    ⟨r.status, r.link⟩
  | .sendTelemetry an t tx => rc_link_send_telemetry linkNull s an t tx
  | .update now => rc_link_update linkNull s now
  | .setFailsafe an fs => rc_link_set_failsafe linkNull s an fs
  | .getFailsafe an =>
    let r := rc_link_get_failsafe linkNull s an
    ⟨r.status, r.link⟩

/-- `receive_and_decode` classifies this poll as a failure (no frame,
hardware error, short frame, bad CRC, bad version, or wrong type). -/
def pollFails (expected_type : Nat) : RadioPoll → Bool
  | .empty => true
  | .hwFail => true
  | .frame b rxLen =>
    decide (rxLen < 6) ||
    decide (b.getD 31 0 ≠ rc_crc8_calculate (b.take ((5 + b.getD 4 0) % 256))) ||
    decide (b.getD 0 0 ≠ RC_PROTOCOL_VERSION) ||
    decide (b.getD 1 0 ≠ expected_type)

/-- One session event, as issued by the control loop. -/
inductive Ev where
  | update (now : Nat)
  | recvCmd (p : RadioPoll) (now : Nat)
  | recvTel (p : RadioPoll) (now : Nat)
  | sendCmd (command : List Nat) (txOk : Bool)
  | sendTel (telemetry : List Nat) (txOk : Bool)
  | setFs (failsafe : List Nat)
  deriving DecidableEq, Repr

/-- The state reached after one event (non-null pointers, initialized
session). -/
def evStep (s : RcLink) : Ev → RcLink
  | .update now => (rc_link_update false s now).link
  | .recvCmd p now => (rc_link_receive_command false s false p now).link
  | .recvTel p now => (rc_link_receive_telemetry false s false p now).link
  | .sendCmd c tx => (rc_link_send_command false s false c tx).link
  | .sendTel t tx => (rc_link_send_telemetry false s false t tx).link
  | .setFs fs => (rc_link_set_failsafe false s false fs).link

/-- Every receive in the event is a failed poll (no successful
reception). -/
def Ev.noRx : Ev → Bool
  | .recvCmd p _ => pollFails RC_PKT_COMMAND p
  | .recvTel p _ => pollFails RC_PKT_TELEMETRY p
  | _ => true

/-- Run a list of events. -/
def runTrace (s : RcLink) (evs : List Ev) : RcLink := evs.foldl evStep s

/-- Run a list of `update` calls at the given times. -/
def runUpdates (s : RcLink) (ts : List Nat) : RcLink :=
  ts.foldl (fun s u => (rc_link_update false s u).link) s

/-! ## Structure-preservation lemmas for the session operations -/

lemma rc_link_update_run {s : RcLink} (h : s.initialized = true) (now : Nat) :
    rc_link_update false s now =
      ⟨RC_OK, calculate_link_quality (update_link_state s now)⟩ := by
  unfold rc_link_update
  simp [h]

lemma update_link_state_stats (s : RcLink) (now : Nat) :
    (update_link_state s now).stats = s.stats := by
  unfold update_link_state
  dsimp only
  split <;> rfl

/-- The stored quality value, written out. -/
lemma calculate_link_quality_val (s : RcLink) :
    (calculate_link_quality s).stats.link_quality =
      if s.stats.packets_sent = 0 then 0
      else
        if 100 < ((s.stats.packets_sent % U32 + U32 - s.stats.packets_missed % U32) % U32 *
            100 % U32 / (s.stats.packets_sent % U32)) % 256 then 100
        else ((s.stats.packets_sent % U32 + U32 - s.stats.packets_missed % U32) % U32 *
            100 % U32 / (s.stats.packets_sent % U32)) % 256 := by
  unfold calculate_link_quality
  split <;> rfl

/-- Session state with one packet sent and two reported missed. -/
def statsLostState : RcLink :=
  { rc_link_init_state with
      stats := { rc_link_init_state.stats with packets_sent := 1, packets_missed := 2 } }

/-! ## Claim C3 -/

/-- C3 (code bug): the encode/decode round-trip holds for a 20-byte
payload but fails for a 21-byte payload even though `MAX_PAYLOAD` is
26: `rc_packet_validate` bounds `payload_len` by
`RC_MAX_PAYLOAD_SIZE - sizeof(header) - 1 = 20`, double-subtracting
header and CRC from a constant that is already the payload capacity,
so `rc_decode_payload` rejects the frame `rc_encode_payload` builds
for any payload of length 21..26. -/
theorem roundtrip_ok_at_20_fails_at_21 :
    rc_decode_payload (rc_encode_payload RC_PKT_COMMAND (List.replicate 20 9) 20 0) 20 =
      some (List.replicate 20 9) ∧
    rc_decode_payload (rc_encode_payload RC_PKT_COMMAND (List.replicate 21 9) 21 0) 21 =
      none := by
  decide

/-! ## Claim C8 -/

/-- C8 (counterexample): with `packets_sent = 1` and
`packets_missed = 2`, `update` stores link quality 100 — the `uint32`
subtraction wraps and the result is clamped only from above — while
the specified `clamp(100 * (sent - missed) / sent, 0, 100)` is 0. -/
theorem link_quality_wrap_gives_100 :
    (rc_link_update false statsLostState 0).link.stats.link_quality = 100 ∧
    spec_link_quality 1 2 = 0 := by
  decide

/-- C8 (amended): after `update`, when `packets_missed ≤ packets_sent`
and `(sent - missed) * 100` does not overflow `uint32`, the stored
link quality equals the specified clamp formula (including
`sent = 0 → 0`); when `missed` exceeds `sent` the wrapped computation
diverges from the clamp. -/
theorem link_quality_matches_spec (s : RcLink) (now : Nat)
    (hinit : s.initialized = true)
    (hsent : s.stats.packets_sent < U32)
    (hm : s.stats.packets_missed ≤ s.stats.packets_sent)
    (hof : (s.stats.packets_sent - s.stats.packets_missed) * 100 < U32) :
    ((rc_link_update false s now).link.stats.link_quality : Int) =
      spec_link_quality s.stats.packets_sent s.stats.packets_missed := by
  rw [rc_link_update_run hinit]
  show ((calculate_link_quality (update_link_state s now)).stats.link_quality : Int) = _
  rw [calculate_link_quality_val, update_link_state_stats]
  by_cases h0 : s.stats.packets_sent = 0
  · simp [h0, spec_link_quality]
  · rw [if_neg h0]
    have hsent0 : 0 < s.stats.packets_sent := Nat.pos_of_ne_zero h0
    set sent := s.stats.packets_sent with hsdef
    set missed := s.stats.packets_missed with hmdef
    have e1 : sent % U32 = sent := Nat.mod_eq_of_lt hsent
    have e2 : missed % U32 = missed := Nat.mod_eq_of_lt (lt_of_le_of_lt hm hsent)
    have e3 : (sent % U32 + U32 - missed % U32) % U32 = sent - missed := by
      rw [e1, e2]
      have h4 : sent + U32 - missed = (sent - missed) + U32 := by omega
      rw [h4, Nat.add_mod_right, Nat.mod_eq_of_lt (by omega)]
    have e4 : (sent - missed) * 100 % U32 = (sent - missed) * 100 :=
      Nat.mod_eq_of_lt hof
    have hq100 : (sent - missed) * 100 / sent ≤ 100 := by
      have h1 : (sent - missed) * 100 ≤ sent * 100 :=
        Nat.mul_le_mul_right 100 (Nat.sub_le sent missed)
      calc (sent - missed) * 100 / sent ≤ sent * 100 / sent :=
            Nat.div_le_div_right h1
        _ = 100 := Nat.mul_div_cancel_left 100 hsent0
    have e5 : (sent - missed) * 100 / sent % 256 = (sent - missed) * 100 / sent :=
      Nat.mod_eq_of_lt (lt_of_le_of_lt hq100 (by norm_num))
    rw [e3, e4, e1, e5]
    rw [if_neg (by omega : ¬ 100 < (sent - missed) * 100 / sent)]
    show (((sent - missed) * 100 / sent : Nat) : Int) = _
    unfold spec_link_quality
    rw [if_neg h0]
    have c1 : (100 : Int) * ((sent : Int) - (missed : Int)) =
        (((sent - missed) * 100 : Nat) : Int) := by
      rw [← Nat.cast_sub hm]
      push_cast
      ring
    rw [c1, ← Int.natCast_div]
    have hq0 : (0 : Int) ≤ (((sent - missed) * 100 / sent : Nat) : Int) := Int.ofNat_nonneg _
    have hqle : (((sent - missed) * 100 / sent : Nat) : Int) ≤ 100 := by
      exact_mod_cast hq100
    rw [min_eq_right hqle, max_eq_right hq0]

/-- Concrete instantiation state for the link-quality formula: four
packets sent, one missed. -/
def statsOkState : RcLink :=
  { rc_link_init_state with
      stats := { rc_link_init_state.stats with packets_sent := 4, packets_missed := 1 } }

/-- C8 witness: the amended theorem applied to four sent / one missed,
where the clamp formula yields 75. -/
theorem link_quality_matches_spec_witness :
    ((rc_link_update false statsOkState 0).link.stats.link_quality : Int) =
      spec_link_quality 4 1 :=
  link_quality_matches_spec statsOkState 0 rfl (by decide) (by decide) (by decide)

/-! ## Claim C2 (counterexample) -/

/-- C2 (counterexample): right after `rc_link_init` the session has
`link_active = false`, not true; and with no receptions at all, an
`update` far past the 1000 ms timeout sets `link_active` to true (the
`UINT32_MAX` sentinel disables the timeout trigger), so no
true-to-false flip ever happens without a reception. -/
theorem init_not_active_and_no_flip :
    rc_link_init_state.link_active ≠ true ∧
    (rc_link_update false rc_link_init_state 5000).link.link_active = true := by
  decide

/-! ## Update characterization -/

lemma calculate_link_quality_fields (s : RcLink) :
    (calculate_link_quality s).initialized = s.initialized ∧
    (calculate_link_quality s).last_rx_time = s.last_rx_time ∧
    (calculate_link_quality s).rx_sequence_last = s.rx_sequence_last ∧
    (calculate_link_quality s).consecutive_missed = s.consecutive_missed ∧
    (calculate_link_quality s).link_active = s.link_active ∧
    (calculate_link_quality s).failsafe_active = s.failsafe_active ∧
    (calculate_link_quality s).failsafe_command = s.failsafe_command := by
  unfold calculate_link_quality
  split <;> simp

lemma time_since_of_rx {s : RcLink} {t0 : Nat} (now : Nat) (hinit : s.initialized = true)
    (hlrt : s.last_rx_time = t0) (ht0 : t0 ≠ UINT32_MAX) (hle : t0 ≤ now)
    (hnow : now < U32) :
    rc_link_get_time_since_rx false s now = now - t0 := by
  unfold rc_link_get_time_since_rx
  rw [hinit, hlrt]
  rw [if_neg (by simp [ht0])]
  have h1 : t0 % U32 = t0 := Nat.mod_eq_of_lt (lt_of_le_of_lt hle hnow)
  have h2 : now % U32 = now := Nat.mod_eq_of_lt hnow
  rw [h1, h2]
  have h3 : now + U32 - t0 = (now - t0) + U32 := by omega
  rw [h3, Nat.add_mod_right, Nat.mod_eq_of_lt (by omega)]

lemma rc_link_update_char {s : RcLink} {t0 : Nat} (now : Nat) (hinit : s.initialized = true)
    (hlrt : s.last_rx_time = t0) (ht0 : t0 ≠ UINT32_MAX) (hle : t0 ≤ now)
    (hnow : now < U32) (hcm : s.consecutive_missed < RC_LINK_LOSS_THRESHOLD)
    (helapsed : now - t0 ≠ UINT32_MAX) :
    (rc_link_update false s now).link.initialized = true ∧
    (rc_link_update false s now).link.last_rx_time = t0 ∧
    (rc_link_update false s now).link.consecutive_missed ≤ s.consecutive_missed ∧
    (rc_link_update false s now).link.link_active =
      decide (now - t0 ≤ RC_LINK_TIMEOUT_MS) := by
  rw [rc_link_update_run hinit]
  show (calculate_link_quality (update_link_state s now)).initialized = true ∧ _ ∧ _ ∧ _
  obtain ⟨q1, q2, -, q4, q5, -, -⟩ := calculate_link_quality_fields (update_link_state s now)
  rw [q1, q2, q4, q5]
  have hts : rc_link_get_time_since_rx false s now = now - t0 :=
    time_since_of_rx now hinit hlrt ht0 hle hnow
  have hgap : decide (RC_LINK_LOSS_THRESHOLD ≤ s.consecutive_missed) = false := by
    simpa using Nat.not_le.mpr hcm
  unfold update_link_state
  rw [hts]
  dsimp only
  have hact : (!decide (now - t0 ≠ UINT32_MAX ∧ RC_LINK_TIMEOUT_MS < now - t0) &&
      !decide (RC_LINK_LOSS_THRESHOLD ≤ s.consecutive_missed)) =
      decide (now - t0 ≤ RC_LINK_TIMEOUT_MS) := by
    rw [hgap]
    by_cases hto : RC_LINK_TIMEOUT_MS < now - t0
    · rw [decide_eq_true (⟨helapsed, hto⟩ : _ ∧ _)]
      simp [Nat.not_le.mpr hto]
    · rw [decide_eq_false (by tauto : ¬ (now - t0 ≠ UINT32_MAX ∧ RC_LINK_TIMEOUT_MS < now - t0))]
      simp [Nat.not_lt.mp hto]
  split <;> simp_all

/-- C2 (amended): at initialization all counters are zero, the
sequence/time fields hold their start values and `link_active` is
false (not true); after a successful reception at time `t0` (and with
fewer than the loss-threshold inferred misses), a run of `update`
calls ending at time `t` leaves `link_active` true exactly while the
elapsed time `t - t0` is at most 1000 ms, so with no further
receptions `link_active` flips from true to false exactly once elapsed
time crosses 1000 ms, and not before. -/
theorem link_transition_characterization :
    (rc_link_init_state.tx_sequence = 0 ∧ rc_link_init_state.rx_sequence_last = 0 ∧
     rc_link_init_state.consecutive_missed = 0 ∧
     rc_link_init_state.stats = ⟨0, 0, 0, 0, 0, 0⟩ ∧
     rc_link_init_state.last_rx_time = UINT32_MAX ∧
     rc_link_init_state.link_active = false ∧
     rc_link_init_state.failsafe_active = false) ∧
    ∀ (s : RcLink) (t0 : Nat) (ts : List Nat) (t : Nat),
      s.initialized = true → s.last_rx_time = t0 → t0 ≠ UINT32_MAX →
      s.consecutive_missed < RC_LINK_LOSS_THRESHOLD →
      (∀ u ∈ ts ++ [t], t0 ≤ u ∧ u < U32 ∧ u - t0 ≠ UINT32_MAX) →
      (runUpdates s (ts ++ [t])).link_active = decide (t - t0 ≤ RC_LINK_TIMEOUT_MS) := by
  constructor
  · exact ⟨rfl, rfl, rfl, rfl, rfl, rfl, rfl⟩
  · have inv : ∀ (ts : List Nat) (s : RcLink) (t0 : Nat),
        s.initialized = true → s.last_rx_time = t0 → t0 ≠ UINT32_MAX →
        s.consecutive_missed < RC_LINK_LOSS_THRESHOLD →
        (∀ u ∈ ts, t0 ≤ u ∧ u < U32 ∧ u - t0 ≠ UINT32_MAX) →
        (runUpdates s ts).initialized = true ∧ (runUpdates s ts).last_rx_time = t0 ∧
          (runUpdates s ts).consecutive_missed < RC_LINK_LOSS_THRESHOLD := by
      intro ts
      induction ts with
      | nil => intro s t0 h1 h2 _ h4 _; exact ⟨h1, h2, h4⟩
      | cons u ts ih =>
        intro s t0 h1 h2 h3 h4 h5
        obtain ⟨hu1, hu2, hu3⟩ := h5 u (List.mem_cons_self u ts)
        obtain ⟨c1, c2, c3, -⟩ := rc_link_update_char u h1 h2 h3 hu1 hu2 h4 hu3
        have h5' : ∀ v ∈ ts, t0 ≤ v ∧ v < U32 ∧ v - t0 ≠ UINT32_MAX :=
          fun v hv => h5 v (List.mem_cons_of_mem u hv)
        show (runUpdates ((rc_link_update false s u).link) ts).initialized = true ∧ _ ∧ _
        exact ih _ t0 c1 c2 h3 (lt_of_le_of_lt c3 h4) h5'
    intro s t0 ts t h1 h2 h3 h4 h5
    have h5ts : ∀ u ∈ ts, t0 ≤ u ∧ u < U32 ∧ u - t0 ≠ UINT32_MAX :=
      fun u hu => h5 u (List.mem_append_left _ hu)
    obtain ⟨ht1, ht2, ht3⟩ := h5 t (List.mem_append_right _ (List.mem_singleton_self t))
    obtain ⟨i1, i2, i3⟩ := inv ts s t0 h1 h2 h3 h4 h5ts
    have hlast : runUpdates s (ts ++ [t]) = (rc_link_update false (runUpdates s ts) t).link := by
      unfold runUpdates
      rw [List.foldl_append]
      rfl
    rw [hlast]
    exact (rc_link_update_char t i1 i2 h3 ht1 ht2 i3 ht3).2.2.2

/-- Session state as after an accepted reception at time 100. -/
def afterRxState : RcLink :=
  { rc_link_init_state with last_rx_time := 100, link_active := true }

/-- C2 witness: the characterization applied to a reception at 100 ms
followed by updates at 500 ms and 1200 ms; the last update reports the
link inactive since 1100 ms have elapsed. -/
theorem link_transition_characterization_witness :
    (runUpdates afterRxState ([500] ++ [1200])).link_active =
      decide ((1200 - 100 : Nat) ≤ RC_LINK_TIMEOUT_MS) :=
  link_transition_characterization.2 afterRxState 100 [500] 1200 rfl rfl
    (by decide) (by decide) (by decide)

/-! ## Status ranges of the internal helpers -/

lemma receive_and_decode_status (s : RcLink) (e : Nat) (p : RadioPoll) :
    (receive_and_decode s e p).status = RC_ERROR_NO_DATA ∨
    (receive_and_decode s e p).status = RC_ERROR_HARDWARE ∨
    (receive_and_decode s e p).status = RC_ERROR_CRC_FAIL ∨
    (receive_and_decode s e p).status = RC_ERROR_VERSION_MISMATCH ∨
    (receive_and_decode s e p).status = RC_OK := by
  cases p with
  | empty => simp [receive_and_decode]
  | hwFail => simp [receive_and_decode]
  | frame b rxLen =>
    unfold receive_and_decode
    dsimp only
    split_ifs <;> simp

lemma encode_and_send_status (s : RcLink) (t : Nat) (payload : List Nat)
    (len : Nat) (tx : Bool) :
    (encode_and_send s t payload len tx).status = RC_ERROR_INVALID_PARAM ∨
    (encode_and_send s t payload len tx).status = RC_OK ∨
    (encode_and_send s t payload len tx).status = RC_ERROR_HARDWARE := by
  unfold encode_and_send
  dsimp only
  split_ifs <;> simp

/-! ## Claim C10 -/

/-- C10: every public session operation checks its arguments first:
with a null link, an uninitialized session, or a null payload/output
pointer it returns `RC_ERROR_INVALID_PARAM` and leaves the session
state untouched; and no operation ever returns
`RC_ERROR_NOT_INITIALIZED`. -/
theorem api_guard_invalid_param (linkNull : Bool) (s : RcLink) (call : ApiCall) :
    ((linkNull || !s.initialized || call.argNullFlag) = true →
      callStep linkNull s call = ⟨RC_ERROR_INVALID_PARAM, s⟩) ∧
    (callStep linkNull s call).status ≠ RC_ERROR_NOT_INITIALIZED := by
  cases call with
  | sendCommand an c tx =>
    constructor
    · intro h
      simp only [ApiCall.argNullFlag] at h
      simp [callStep, rc_link_send_command, h]
    · unfold callStep rc_link_send_command
      dsimp only
      split_ifs with h1 h2
      · simp
      · simp
      · rcases encode_and_send_status { s with role := RcRole.RC_ROLE_GROUND }
          RC_PKT_COMMAND c 18 tx with h | h | h <;> simp [h]
  | receiveTelemetry an p now =>
    constructor
    · intro h
      simp only [ApiCall.argNullFlag] at h
      simp [callStep, rc_link_receive_telemetry, h]
    · unfold callStep rc_link_receive_telemetry
      dsimp only
      split_ifs with h1 h2
      · simp
      · simp
      · rcases receive_and_decode_status s RC_PKT_TELEMETRY p with h | h | h | h | h <;>
          simp [h]
  | receiveCommand an p now =>
    constructor
    · intro h
      simp only [ApiCall.argNullFlag] at h
      simp [callStep, rc_link_receive_command, h]
    · unfold callStep rc_link_receive_command
      dsimp only
      split_ifs with h1 h2 h3
      · simp
      · simp
      · simp
      · rcases receive_and_decode_status { s with role := RcRole.RC_ROLE_AIRCRAFT }
          RC_PKT_COMMAND p with h | h | h | h | h <;> simp [h]
  | sendTelemetry an t tx =>
    constructor
    · intro h
      simp only [ApiCall.argNullFlag] at h
      simp [callStep, rc_link_send_telemetry, h]
    · unfold callStep rc_link_send_telemetry
      dsimp only
      split_ifs with h1 h2
      · simp
      · simp
      · rcases encode_and_send_status s RC_PKT_TELEMETRY t 22 tx with h | h | h <;> simp [h]
  | update now =>
    constructor
    · intro h
      simp only [ApiCall.argNullFlag, Bool.or_false] at h
      simp [callStep, rc_link_update, h]
    · unfold callStep rc_link_update
      dsimp only
      split_ifs <;> simp
  | setFailsafe an fs =>
    constructor
    · intro h
      simp only [ApiCall.argNullFlag] at h
      simp [callStep, rc_link_set_failsafe, h]
    · unfold callStep rc_link_set_failsafe
      dsimp only
      split_ifs <;> simp
  | getFailsafe an =>
    constructor
    · intro h
      simp only [ApiCall.argNullFlag] at h
      simp [callStep, rc_link_get_failsafe, h]
    · unfold callStep rc_link_get_failsafe
      dsimp only
      split_ifs <;> simp

/-- C10 witness: calling update on a null link, and send-command with
a null command pointer, both return `RC_ERROR_INVALID_PARAM` with the
state unchanged; a well-formed get-failsafe does not report
`RC_ERROR_NOT_INITIALIZED`. -/
theorem api_guard_invalid_param_witness :
    callStep true rc_link_init_state (ApiCall.update 5) =
      ⟨RC_ERROR_INVALID_PARAM, rc_link_init_state⟩ ∧
    callStep false rc_link_init_state (ApiCall.sendCommand true cmdPayload18 true) =
      ⟨RC_ERROR_INVALID_PARAM, rc_link_init_state⟩ ∧
    (callStep false rc_link_init_state (ApiCall.getFailsafe false)).status ≠
      RC_ERROR_NOT_INITIALIZED :=
  ⟨(api_guard_invalid_param true rc_link_init_state (ApiCall.update 5)).1 (by decide),
   (api_guard_invalid_param false rc_link_init_state
     (ApiCall.sendCommand true cmdPayload18 true)).1 (by decide),
   (api_guard_invalid_param false rc_link_init_state (ApiCall.getFailsafe false)).2⟩

/-! ## Claim C5 -/

/-- Poll delivering a well-formed command frame with the given
sequence number. -/
def cmdPoll (q : Nat) : RadioPoll := RadioPoll.frame (mkCommandFrame q cmdPayload18) 32

/-- Session state after an accepted reception of sequence 6. -/
def gapWitState : RcLink :=
  { rc_link_init_state with last_rx_time := 100, rx_sequence_last := 6 }

/-- C5: on each accepted reception after the first (`last_rx_time` no
longer holds the never-received sentinel), the tracker computes
`gap = sequence - (rx_sequence_last + 1)` modulo 256, adds a positive
gap to `consecutive_missed` (as the `uint8` field wraps) and resets it
to zero when the gap is zero; in particular accepting sequences
5, 6, 9 leaves `consecutive_missed = 2` and a subsequent accepted 10
resets it to 0. -/
theorem sequence_gap_accounting :
    (∀ (s : RcLink) (e : Nat) (b : List Nat) (rxLen : Nat),
      s.last_rx_time ≠ UINT32_MAX →
      (receive_and_decode s e (RadioPoll.frame b rxLen)).status = RC_OK →
      (receive_and_decode s e (RadioPoll.frame b rxLen)).link.consecutive_missed =
        if 0 < (b.getD 2 0 + 256 - (s.rx_sequence_last + 1) % 256) % 256
        then (s.consecutive_missed +
          (b.getD 2 0 + 256 - (s.rx_sequence_last + 1) % 256) % 256) % 256
        else 0) ∧
    (runTrace rc_link_init_state
      [Ev.recvCmd (cmdPoll 5) 100, Ev.recvCmd (cmdPoll 6) 110,
       Ev.recvCmd (cmdPoll 9) 120]).consecutive_missed = 2 ∧
    (runTrace rc_link_init_state
      [Ev.recvCmd (cmdPoll 5) 100, Ev.recvCmd (cmdPoll 6) 110,
       Ev.recvCmd (cmdPoll 9) 120, Ev.recvCmd (cmdPoll 10) 130]).consecutive_missed = 0 := by
  refine ⟨?_, by decide, by decide⟩
  intro s e b rxLen hlrt hok
  unfold receive_and_decode at hok ⊢
  dsimp only at hok ⊢
  split_ifs at hok ⊢ <;> simp_all

/-- C5 witness: the gap rule applied to an accepted frame with
sequence 9 after `rx_sequence_last = 6`, giving two inferred misses. -/
theorem sequence_gap_accounting_witness :
    (receive_and_decode gapWitState RC_PKT_COMMAND
      (RadioPoll.frame (mkCommandFrame 9 cmdPayload18) 32)).link.consecutive_missed = 2 := by
  have h := sequence_gap_accounting.1 gapWitState RC_PKT_COMMAND
    (mkCommandFrame 9 cmdPayload18) 32 (by decide) (by decide)
  rw [h]
  decide

/-! ## Failure preservation of the receive path -/

/-- A rejected poll leaves every tracker field (and every statistic
other than the two error counters) untouched; only the RX buffer and
possibly one error counter change. -/
lemma receive_and_decode_fail_preserves (s : RcLink) (e : Nat) (p : RadioPoll)
    (h : (receive_and_decode s e p).status ≠ RC_OK) :
    (receive_and_decode s e p).link.last_rx_time = s.last_rx_time ∧
    (receive_and_decode s e p).link.rx_sequence_last = s.rx_sequence_last ∧
    (receive_and_decode s e p).link.consecutive_missed = s.consecutive_missed ∧
    (receive_and_decode s e p).link.link_active = s.link_active ∧
    (receive_and_decode s e p).link.failsafe_active = s.failsafe_active ∧
    (receive_and_decode s e p).link.initialized = s.initialized ∧
    (receive_and_decode s e p).link.failsafe_command = s.failsafe_command ∧
    (receive_and_decode s e p).link.role = s.role ∧
    (receive_and_decode s e p).link.tx_sequence = s.tx_sequence ∧
    (receive_and_decode s e p).link.stats.packets_sent = s.stats.packets_sent ∧
    (receive_and_decode s e p).link.stats.packets_received = s.stats.packets_received ∧
    (receive_and_decode s e p).link.stats.packets_missed = s.stats.packets_missed ∧
    (receive_and_decode s e p).link.stats.link_quality = s.stats.link_quality := by
  cases p with
  | empty => simp [receive_and_decode]
  | hwFail => simp [receive_and_decode]
  | frame b rxLen =>
    unfold receive_and_decode at h ⊢
    dsimp only at h ⊢
    split_ifs at h ⊢ <;> simp_all

/-- A failing poll is classified as a failure independently of the
session state. -/
lemma pollFails_status (s : RcLink) (e : Nat) (p : RadioPoll)
    (h : pollFails e p = true) : (receive_and_decode s e p).status ≠ RC_OK := by
  cases p with
  | empty => simp [receive_and_decode]
  | hwFail => simp [receive_and_decode]
  | frame b rxLen =>
    unfold pollFails at h
    unfold receive_and_decode
    dsimp only
    split_ifs with h1 h2 h3 h4 <;> simp_all

/-! ## Never-received invariant (claim C9) -/

/-- No frame was ever accepted: the sentinel is still in
`last_rx_time`, no misses were inferred, the session is initialized. -/
def NeverRx (s : RcLink) : Prop :=
  s.initialized = true ∧ s.last_rx_time = UINT32_MAX ∧ s.consecutive_missed = 0

lemma update_never {s : RcLink} (now : Nat) (hN : NeverRx s) :
    NeverRx ((rc_link_update false s now).link) ∧
    ((rc_link_update false s now).link).link_active = true := by
  obtain ⟨h1, h2, h3⟩ := hN
  rw [rc_link_update_run h1]
  obtain ⟨q1, q2, -, q4, q5, -, -⟩ := calculate_link_quality_fields (update_link_state s now)
  have hts : rc_link_get_time_since_rx false s now = UINT32_MAX := by
    unfold rc_link_get_time_since_rx
    rw [if_pos (by simp [h2])]
  have hact : (update_link_state s now).link_active = true ∧
      (update_link_state s now).consecutive_missed = 0 ∧
      (update_link_state s now).last_rx_time = s.last_rx_time ∧
      (update_link_state s now).initialized = s.initialized := by
    unfold update_link_state
    rw [hts]
    dsimp only
    rw [decide_eq_false (by simp : ¬ (UINT32_MAX ≠ UINT32_MAX ∧
      RC_LINK_TIMEOUT_MS < UINT32_MAX))]
    rw [decide_eq_false (by simp [h3, RC_LINK_LOSS_THRESHOLD] : ¬ RC_LINK_LOSS_THRESHOLD ≤
      s.consecutive_missed)]
    split_ifs <;> simp [h3]
  exact ⟨⟨by rw [q1, hact.2.2.2, h1], by rw [q2, hact.2.2.1, h2],
    by rw [q4, hact.2.1]⟩, by rw [q5, hact.1]⟩

lemma evStep_never {s : RcLink} {e : Ev} (hN : NeverRx s) (hok : e.noRx = true) :
    NeverRx (evStep s e) ∧ (s.link_active = true → (evStep s e).link_active = true) := by
  obtain ⟨h1, h2, h3⟩ := hN
  cases e with
  | update now =>
    obtain ⟨hn, ha⟩ := update_never now ⟨h1, h2, h3⟩
    exact ⟨hn, fun _ => ha⟩
  | recvCmd p now =>
    have hf : pollFails RC_PKT_COMMAND p = true := by simpa [Ev.noRx] using hok
    have hstep : evStep s (Ev.recvCmd p now) =
        (rc_link_receive_command false s false p now).link := rfl
    rw [hstep]
    unfold rc_link_receive_command
    rw [if_neg (by simp [h1])]
    dsimp only
    have hst := pollFails_status { s with role := RcRole.RC_ROLE_AIRCRAFT } RC_PKT_COMMAND p hf
    rw [if_neg hst]
    obtain ⟨f1, -, f3, f4, -, f6, -, -, -, -, -, -, -⟩ :=
      receive_and_decode_fail_preserves { s with role := RcRole.RC_ROLE_AIRCRAFT }
        RC_PKT_COMMAND p hst
    split_ifs with hla <;>
      refine ⟨⟨?_, ?_, ?_⟩, fun ha => ?_⟩ <;> simp_all
  | recvTel p now =>
    have hf : pollFails RC_PKT_TELEMETRY p = true := by simpa [Ev.noRx] using hok
    have hstep : evStep s (Ev.recvTel p now) =
        (rc_link_receive_telemetry false s false p now).link := rfl
    rw [hstep]
    unfold rc_link_receive_telemetry
    rw [if_neg (by simp [h1])]
    dsimp only
    have hst := pollFails_status s RC_PKT_TELEMETRY p hf
    rw [if_neg hst]
    obtain ⟨f1, -, f3, f4, -, f6, -, -, -, -, -, -, -⟩ :=
      receive_and_decode_fail_preserves s RC_PKT_TELEMETRY p hst
    refine ⟨⟨?_, ?_, ?_⟩, fun ha => ?_⟩ <;> simp_all
  | sendCmd c tx =>
    have hstep : evStep s (Ev.sendCmd c tx) =
        (rc_link_send_command false s false c tx).link := rfl
    rw [hstep]
    unfold rc_link_send_command
    rw [if_neg (by simp [h1])]
    dsimp only
    unfold encode_and_send
    dsimp only
    split_ifs <;> refine ⟨⟨?_, ?_, ?_⟩, fun ha => ?_⟩ <;> simp_all
  | sendTel t tx =>
    have hstep : evStep s (Ev.sendTel t tx) =
        (rc_link_send_telemetry false s false t tx).link := rfl
    rw [hstep]
    unfold rc_link_send_telemetry
    rw [if_neg (by simp [h1])]
    dsimp only
    unfold encode_and_send
    dsimp only
    split_ifs <;> refine ⟨⟨?_, ?_, ?_⟩, fun ha => ?_⟩ <;> simp_all
  | setFs fs =>
    have hstep : evStep s (Ev.setFs fs) =
        (rc_link_set_failsafe false s false fs).link := rfl
    rw [hstep]
    unfold rc_link_set_failsafe
    rw [if_neg (by simp [h1])]
    refine ⟨⟨?_, ?_, ?_⟩, fun ha => ?_⟩ <;> simp_all

lemma runTrace_never (evs : List Ev) : ∀ (s : RcLink), NeverRx s →
    (∀ e ∈ evs, e.noRx = true) →
    NeverRx (runTrace s evs) ∧
      (s.link_active = true → (runTrace s evs).link_active = true) := by
  induction evs with
  | nil => exact fun s hN _ => ⟨hN, fun h => h⟩
  | cons e evs ih =>
    intro s hN hok
    have he : e.noRx = true := hok e (List.mem_cons_self e evs)
    have hrest : ∀ x ∈ evs, x.noRx = true := fun x hx => hok x (List.mem_cons_of_mem e hx)
    obtain ⟨hN', hact'⟩ := evStep_never hN he
    obtain ⟨hN'', hact''⟩ := ih (evStep s e) hN' hrest
    exact ⟨hN'', fun h => hact'' (hact' h)⟩

/-! ## Claim C9 -/

/-- C9: while no frame has ever been successfully received, the
timeout trigger never fires (`time_since_rx` reports the `UINT32_MAX`
sentinel); after any run from initialization containing at least one
`update` and only failed polls, `link_active` is true, and a command
poll finding no data propagates `RC_ERROR_NO_DATA` with no payload —
the failsafe cannot engage via timeout before first contact. -/
theorem no_failsafe_before_first_contact (pre post : List Ev) (tu : Nat)
    (hok : ∀ e ∈ pre ++ Ev.update tu :: post, e.noRx = true) :
    (runTrace rc_link_init_state (pre ++ Ev.update tu :: post)).last_rx_time = UINT32_MAX ∧
    (∀ t, rc_link_get_time_since_rx false
      (runTrace rc_link_init_state (pre ++ Ev.update tu :: post)) t = UINT32_MAX) ∧
    (runTrace rc_link_init_state (pre ++ Ev.update tu :: post)).link_active = true ∧
    (∀ now,
      (rc_link_receive_command false (runTrace rc_link_init_state
        (pre ++ Ev.update tu :: post)) false RadioPoll.empty now).status =
        RC_ERROR_NO_DATA ∧
      (rc_link_receive_command false (runTrace rc_link_init_state
        (pre ++ Ev.update tu :: post)) false RadioPoll.empty now).out = none) := by
  have hpre : ∀ e ∈ pre, e.noRx = true :=
    fun e he => hok e (List.mem_append_left _ he)
  have hpost : ∀ e ∈ post, e.noRx = true :=
    fun e he => hok e (List.mem_append_right _ (List.mem_cons_of_mem _ he))
  have hinit : NeverRx rc_link_init_state := ⟨rfl, rfl, rfl⟩
  have hsplit : runTrace rc_link_init_state (pre ++ Ev.update tu :: post) =
      runTrace (evStep (runTrace rc_link_init_state pre) (Ev.update tu)) post := by
    unfold runTrace
    rw [List.foldl_append]
    rfl
  obtain ⟨hN1, -⟩ := runTrace_never pre rc_link_init_state hinit hpre
  obtain ⟨hN2, hact2⟩ := evStep_never (e := Ev.update tu) hN1 rfl
  have hact2' : (evStep (runTrace rc_link_init_state pre) (Ev.update tu)).link_active = true :=
    (update_never tu hN1).2
  obtain ⟨hN3, hact3⟩ := runTrace_never post _ hN2 hpost
  rw [hsplit]
  obtain ⟨g1, g2, g3⟩ := hN3
  have hactF := hact3 hact2'
  refine ⟨g2, ?_, hactF, ?_⟩
  · intro t
    unfold rc_link_get_time_since_rx
    rw [if_pos (by simp [g2])]
  · intro now
    unfold rc_link_receive_command
    rw [if_neg (by simp [g1])]
    dsimp only
    have hla : (receive_and_decode { runTrace (evStep (runTrace rc_link_init_state pre)
        (Ev.update tu)) post with role := RcRole.RC_ROLE_AIRCRAFT } RC_PKT_COMMAND
        RadioPoll.empty).link.link_active = true := hactF
    rw [if_neg (by simp [receive_and_decode])]
    rw [if_neg (by simp [hla])]
    exact ⟨rfl, rfl⟩

/-- C9 witness: a trace of one failed poll, one update and another
failed poll, after which a no-data command receive reports
`RC_ERROR_NO_DATA` and no substituted payload. -/
theorem no_failsafe_before_first_contact_witness :
    (runTrace rc_link_init_state ([Ev.recvCmd RadioPoll.empty 3] ++
      Ev.update 2000 :: [Ev.recvCmd RadioPoll.hwFail 2100])).link_active = true ∧
    (rc_link_receive_command false (runTrace rc_link_init_state
      ([Ev.recvCmd RadioPoll.empty 3] ++ Ev.update 2000 ::
        [Ev.recvCmd RadioPoll.hwFail 2100])) false RadioPoll.empty 2200).status =
      RC_ERROR_NO_DATA := by
  have h := no_failsafe_before_first_contact [Ev.recvCmd RadioPoll.empty 3]
    [Ev.recvCmd RadioPoll.hwFail 2100] 2000 (by decide)
  exact ⟨h.2.2.1, (h.2.2.2 2200).1⟩

/-! ## Claim C1 -/

/-- First lost-link command receive against a corrupted frame. -/
def lostCall1 : RcRecv :=
  rc_link_receive_command false rc_link_init_state false (RadioPoll.frame badCrcFrame 32) 10

/-- Second lost-link command receive against the same corrupted frame. -/
def lostCall2 : RcRecv :=
  rc_link_receive_command false lostCall1.link false (RadioPoll.frame badCrcFrame 32) 20

/-- C1 (counterexample): with the link lost, two successive command
receives that each see the same CRC-corrupted frame both return
`RC_OK` with the same failsafe payload, but the second call is not
side-effect free: the `crc_errors` statistic advances again, so the
session state differs after the repeated call. -/
theorem failsafe_repeat_changes_state :
    lostCall1.status = RC_OK ∧
    lostCall1.out = some rc_link_init_state.failsafe_command ∧
    lostCall2.status = RC_OK ∧
    lostCall2.out = lostCall1.out ∧
    lostCall2.link.stats.crc_errors = lostCall1.link.stats.crc_errors + 1 ∧
    lostCall2.link ≠ lostCall1.link := by
  decide

/-- C1 (amended): on the aircraft role, whenever the command receive
finds no data or the decode fails while `link_active = false`, it
returns the stored failsafe command with `RC_OK` and sets
`failsafe_active = true`, leaving the sequence/timeout tracker state
and the stored failsafe unchanged; a repeated no-data poll while still
lost changes nothing at all, though a repeated decode failure still
advances the checksum/version statistics; conversely, while
`link_active = true`, a failed poll propagates its error (`NoData` for
an empty poll) and never substitutes the failsafe. -/
theorem failsafe_substitution (s : RcLink) (p : RadioPoll) (now : Nat)
    (hinit : s.initialized = true) :
    (pollFails RC_PKT_COMMAND p = true → s.link_active = false →
      (rc_link_receive_command false s false p now).status = RC_OK ∧
      (rc_link_receive_command false s false p now).out = some s.failsafe_command ∧
      (rc_link_receive_command false s false p now).link.failsafe_active = true ∧
      (rc_link_receive_command false s false p now).link.last_rx_time = s.last_rx_time ∧
      (rc_link_receive_command false s false p now).link.rx_sequence_last =
        s.rx_sequence_last ∧
      (rc_link_receive_command false s false p now).link.consecutive_missed =
        s.consecutive_missed ∧
      (rc_link_receive_command false s false p now).link.link_active = false ∧
      (rc_link_receive_command false s false p now).link.failsafe_command =
        s.failsafe_command) ∧
    (s.link_active = false → s.failsafe_active = true → s.role = RcRole.RC_ROLE_AIRCRAFT →
      rc_link_receive_command false s false RadioPoll.empty now =
        ⟨RC_OK, s, some s.failsafe_command⟩) ∧
    (pollFails RC_PKT_COMMAND p = true → s.link_active = true →
      (rc_link_receive_command false s false p now).status ≠ RC_OK ∧
      (rc_link_receive_command false s false p now).out = none ∧
      (rc_link_receive_command false s false p now).link.failsafe_active =
        s.failsafe_active) ∧
    (s.link_active = true →
      (rc_link_receive_command false s false RadioPoll.empty now).status =
        RC_ERROR_NO_DATA) := by
  refine ⟨?_, ?_, ?_, ?_⟩
  · intro hfail hla
    unfold rc_link_receive_command
    rw [if_neg (by simp [hinit])]
    dsimp only
    have hst := pollFails_status { s with role := RcRole.RC_ROLE_AIRCRAFT }
      RC_PKT_COMMAND p hfail
    obtain ⟨f1, f2, f3, f4, f5, -, f7, -, -, -, -, -, -⟩ :=
      receive_and_decode_fail_preserves { s with role := RcRole.RC_ROLE_AIRCRAFT }
        RC_PKT_COMMAND p hst
    rw [if_neg hst]
    rw [if_pos (by simp only [f4]; simp [hla])]
    refine ⟨rfl, ?_, ?_, ?_, ?_, ?_, ?_, ?_⟩ <;> simp_all
  · intro hla hfa hrole
    have hs : ({ s with role := RcRole.RC_ROLE_AIRCRAFT } : RcLink) = s := by
      rw [← hrole]
    unfold rc_link_receive_command
    rw [if_neg (by simp [hinit])]
    dsimp only
    rw [hs]
    rw [if_neg (by simp [receive_and_decode])]
    rw [if_pos (by simp [receive_and_decode, hla])]
    have hfs : ({ s with failsafe_active := true } : RcLink) = s := by
      rw [← hfa]
    show (⟨RC_OK, { s with failsafe_active := true },
      some s.failsafe_command⟩ : RcRecv) = _
    rw [hfs]
  · intro hfail hla
    unfold rc_link_receive_command
    rw [if_neg (by simp [hinit])]
    dsimp only
    have hst := pollFails_status { s with role := RcRole.RC_ROLE_AIRCRAFT }
      RC_PKT_COMMAND p hfail
    obtain ⟨-, -, -, f4, f5, -, -, -, -, -, -, -, -⟩ :=
      receive_and_decode_fail_preserves { s with role := RcRole.RC_ROLE_AIRCRAFT }
        RC_PKT_COMMAND p hst
    rw [if_neg hst]
    rw [if_neg (by simp only [f4]; simp [hla])]
    exact ⟨hst, rfl, f5⟩
  · intro hla
    unfold rc_link_receive_command
    rw [if_neg (by simp [hinit])]
    dsimp only
    rw [if_neg (by simp [receive_and_decode])]
    rw [if_neg (by simp [receive_and_decode, hla])]
    rfl

/-- C1 witness: the substitution rule applied right after
initialization (where the link is lost and `failsafe_active` is still
false) with an empty poll: the call succeeds with the default failsafe
and marks `failsafe_active`. -/
theorem failsafe_substitution_witness :
    (rc_link_receive_command false rc_link_init_state false RadioPoll.empty 7).status =
      RC_OK ∧
    (rc_link_receive_command false rc_link_init_state false RadioPoll.empty 7).out =
      some rc_link_init_state.failsafe_command ∧
    (rc_link_receive_command false rc_link_init_state false
      RadioPoll.empty 7).link.failsafe_active = true := by
  have h := (failsafe_substitution rc_link_init_state RadioPoll.empty 7 rfl).1
    (by decide) (by decide)
  exact ⟨h.1, h.2.1, h.2.2.1⟩

/-! ## Claim C4 -/

lemma receive_and_decode_fail_counters (s : RcLink) (e : Nat) (p : RadioPoll) :
    ((receive_and_decode s e p).status = RC_ERROR_VERSION_MISMATCH →
      (receive_and_decode s e p).link.stats.crc_errors = s.stats.crc_errors) ∧
    ((receive_and_decode s e p).status = RC_ERROR_CRC_FAIL →
      (receive_and_decode s e p).link.stats.version_mismatches =
        s.stats.version_mismatches) ∧
    ((receive_and_decode s e p).status = RC_ERROR_NO_DATA →
      (receive_and_decode s e p).link.stats.crc_errors = s.stats.crc_errors ∧
      (receive_and_decode s e p).link.stats.version_mismatches =
        s.stats.version_mismatches) := by
  cases p with
  | empty => simp [receive_and_decode]
  | hwFail => simp [receive_and_decode]
  | frame b rxLen =>
    unfold receive_and_decode
    dsimp only
    split_ifs <;> simp_all

/-- C4 (counterexample): a command receive that rejects a
checksum-failing frame while the link is already lost flips
`failsafe_active` from false to true (failsafe substitution), so not
every field in the claim's list is left unchanged by a rejecting
call. -/
theorem rejected_frame_sets_failsafe :
    (receive_and_decode { rc_link_init_state with role := RcRole.RC_ROLE_AIRCRAFT }
      RC_PKT_COMMAND (RadioPoll.frame badCrcFrame 32)).status = RC_ERROR_CRC_FAIL ∧
    rc_link_init_state.failsafe_active = false ∧
    (rc_link_receive_command false rc_link_init_state false
      (RadioPoll.frame badCrcFrame 32) 10).link.failsafe_active = true := by
  decide

/-- C4 (amended): a receive call that rejects a frame (checksum
failure, version mismatch, unexpected type) never updates
`last_rx_time`, `rx_sequence_last`, `consecutive_missed` or
`link_active`, never counts the frame as a reception, and changes at
most the one statistics counter matching the failure;
`failsafe_active` is also unchanged except that the aircraft command
path, when the tracker already reports the link lost, may set it as
part of failsafe substitution. -/
theorem rejected_frame_no_tracker_update (s : RcLink) (p : RadioPoll) (now : Nat)
    (hinit : s.initialized = true) :
    (∀ e, (receive_and_decode s e p).status ≠ RC_OK →
      (receive_and_decode s e p).link.last_rx_time = s.last_rx_time ∧
      (receive_and_decode s e p).link.rx_sequence_last = s.rx_sequence_last ∧
      (receive_and_decode s e p).link.consecutive_missed = s.consecutive_missed ∧
      (receive_and_decode s e p).link.link_active = s.link_active ∧
      (receive_and_decode s e p).link.failsafe_active = s.failsafe_active ∧
      (receive_and_decode s e p).link.stats.packets_sent = s.stats.packets_sent ∧
      (receive_and_decode s e p).link.stats.packets_received = s.stats.packets_received ∧
      (receive_and_decode s e p).link.stats.packets_missed = s.stats.packets_missed ∧
      ((receive_and_decode s e p).status = RC_ERROR_VERSION_MISMATCH →
        (receive_and_decode s e p).link.stats.crc_errors = s.stats.crc_errors) ∧
      ((receive_and_decode s e p).status = RC_ERROR_CRC_FAIL →
        (receive_and_decode s e p).link.stats.version_mismatches =
          s.stats.version_mismatches) ∧
      ((receive_and_decode s e p).status = RC_ERROR_NO_DATA →
        (receive_and_decode s e p).link.stats.crc_errors = s.stats.crc_errors ∧
        (receive_and_decode s e p).link.stats.version_mismatches =
          s.stats.version_mismatches)) ∧
    (pollFails RC_PKT_TELEMETRY p = true →
      (rc_link_receive_telemetry false s false p now).link.last_rx_time =
        s.last_rx_time ∧
      (rc_link_receive_telemetry false s false p now).link.rx_sequence_last =
        s.rx_sequence_last ∧
      (rc_link_receive_telemetry false s false p now).link.consecutive_missed =
        s.consecutive_missed ∧
      (rc_link_receive_telemetry false s false p now).link.link_active = s.link_active ∧
      (rc_link_receive_telemetry false s false p now).link.failsafe_active =
        s.failsafe_active) ∧
    (pollFails RC_PKT_COMMAND p = true → s.link_active = true →
      (rc_link_receive_command false s false p now).link.last_rx_time = s.last_rx_time ∧
      (rc_link_receive_command false s false p now).link.rx_sequence_last =
        s.rx_sequence_last ∧
      (rc_link_receive_command false s false p now).link.consecutive_missed =
        s.consecutive_missed ∧
      (rc_link_receive_command false s false p now).link.link_active = s.link_active ∧
      (rc_link_receive_command false s false p now).link.failsafe_active =
        s.failsafe_active) := by
  refine ⟨?_, ?_, ?_⟩
  · intro e hst
    obtain ⟨f1, f2, f3, f4, f5, -, -, -, -, g1, g2, g3, g4⟩ :=
      receive_and_decode_fail_preserves s e p hst
    obtain ⟨c1, c2, c3⟩ := receive_and_decode_fail_counters s e p
    exact ⟨f1, f2, f3, f4, f5, g1, g2, g3, c1, c2, c3⟩
  · intro hfail
    unfold rc_link_receive_telemetry
    rw [if_neg (by simp [hinit])]
    dsimp only
    have hst := pollFails_status s RC_PKT_TELEMETRY p hfail
    rw [if_neg hst]
    obtain ⟨f1, f2, f3, f4, f5, -, -, -, -, -, -, -, -⟩ :=
      receive_and_decode_fail_preserves s RC_PKT_TELEMETRY p hst
    exact ⟨f1, f2, f3, f4, f5⟩
  · intro hfail hla
    unfold rc_link_receive_command
    rw [if_neg (by simp [hinit])]
    dsimp only
    have hst := pollFails_status { s with role := RcRole.RC_ROLE_AIRCRAFT }
      RC_PKT_COMMAND p hfail
    obtain ⟨f1, f2, f3, f4, f5, -, -, -, -, -, -, -, -⟩ :=
      receive_and_decode_fail_preserves { s with role := RcRole.RC_ROLE_AIRCRAFT }
        RC_PKT_COMMAND p hst
    rw [if_neg hst]
    rw [if_neg (by simp only [f4]; simp [hla])]
    exact ⟨by simpa using f1, by simpa using f2, by simpa using f3,
      by simpa using f4, by simpa using f5⟩

/-- C4 witness: the preservation rule applied to a CRC-corrupted frame
arriving while the link is active: `last_rx_time` and
`failsafe_active` are exactly as before the call. -/
theorem rejected_frame_no_tracker_update_witness :
    (receive_and_decode afterRxState RC_PKT_COMMAND
      (RadioPoll.frame badCrcFrame 32)).link.last_rx_time = afterRxState.last_rx_time ∧
    (rc_link_receive_command false afterRxState false
      (RadioPoll.frame badCrcFrame 32) 5).link.failsafe_active =
      afterRxState.failsafe_active := by
  have h := rejected_frame_no_tracker_update afterRxState
    (RadioPoll.frame badCrcFrame 32) 5 rfl
  exact ⟨(h.1 RC_PKT_COMMAND (by decide)).1, ((h.2.2 (by decide)) (by decide)).2.2.2.2⟩

/-! ## Claim C6 -/

/-- C6 (counterexample): in the driver receive path a frame whose
version byte is wrong and whose stored checksum does not match is
rejected as `RC_ERROR_CRC_FAIL`, not as a version mismatch — the
checksum over header+payload is recomputed (with the unvalidated
`payload_len`) before the version is ever examined. -/
theorem version_mismatch_reported_as_crc :
    wrongVersionFrame.getD 0 0 ≠ RC_PROTOCOL_VERSION ∧
    (receive_and_decode rc_link_init_state RC_PKT_COMMAND
      (RadioPoll.frame wrongVersionFrame 32)).status = RC_ERROR_CRC_FAIL := by
  decide

/-- C6 (amended): the codec's `rc_packet_validate` checks version and
`payload_len` (against the compiled bound 20) before recomputing the
checksum, so such frames are rejected whatever the stored checksum
byte holds; the driver's `receive_and_decode`, by contrast, recomputes
the checksum first using the unvalidated `payload_len`, so a
version-mismatched frame is reported as a version mismatch only when
its stored checksum happens to match, and as a checksum failure
otherwise. -/
theorem validate_order (f : List Nat) (c : Nat) (s : RcLink) (e : Nat)
    (b : List Nat) (rxLen : Nat) :
    (f.getD 0 0 ≠ RC_PROTOCOL_VERSION →
      rc_packet_validate (f.set (5 + f.getD 4 0) c) = false) ∧
    (20 < f.getD 4 0 →
      rc_packet_validate (f.set (5 + f.getD 4 0) c) = false) ∧
    (6 ≤ rxLen →
      b.getD 31 0 ≠ rc_crc8_calculate (b.take ((5 + b.getD 4 0) % 256)) →
      (receive_and_decode s e (RadioPoll.frame b rxLen)).status = RC_ERROR_CRC_FAIL) ∧
    (6 ≤ rxLen →
      b.getD 31 0 = rc_crc8_calculate (b.take ((5 + b.getD 4 0) % 256)) →
      b.getD 0 0 ≠ RC_PROTOCOL_VERSION →
      (receive_and_decode s e (RadioPoll.frame b rxLen)).status =
        RC_ERROR_VERSION_MISMATCH) := by
  refine ⟨?_, ?_, ?_, ?_⟩
  · intro hv
    by_cases hval : rc_packet_validate (f.set (5 + f.getD 4 0) c) = true
    · exfalso
      have h := ((rc_packet_validate_iff _).mp hval).1
      rw [getD_set_ne f c 0 (by omega)] at h
      exact hv (by simpa [RC_PROTOCOL_VERSION] using h)
    · simpa using hval
  · intro hlen
    by_cases hval : rc_packet_validate (f.set (5 + f.getD 4 0) c) = true
    · exfalso
      have h := ((rc_packet_validate_iff _).mp hval).2.1
      rw [getD_set_ne f c 0 (by omega)] at h
      omega
    · simpa using hval
  · intro hrx hcrc
    unfold receive_and_decode
    dsimp only
    rw [if_neg (by omega), if_pos hcrc]
  · intro hrx hcrc hv
    unfold receive_and_decode
    dsimp only
    rw [if_neg (by omega), if_neg (by simpa using hcrc), if_pos hv]

/-- C6 witness: the ordering facts at concrete frames — the
wrong-version frame fails `rc_packet_validate` with its checksum byte
replaced by an arbitrary value, and in the driver path the corrupted
frame is classified as a checksum failure. -/
theorem validate_order_witness :
    rc_packet_validate (wrongVersionFrame.set (5 + wrongVersionFrame.getD 4 0) 99) =
      false ∧
    (receive_and_decode rc_link_init_state RC_PKT_TELEMETRY
      (RadioPoll.frame badCrcFrame 32)).status = RC_ERROR_CRC_FAIL := by
  have h := validate_order wrongVersionFrame 99 rc_link_init_state RC_PKT_TELEMETRY
    badCrcFrame 32
  exact ⟨h.1 (by decide), h.2.2.1 (by decide) (by decide)⟩

/-! ## Claim C7 -/

/-- CRC over the bare header of the flip-evasion frame. -/
def c1v : Nat := rc_crc8_calculate [1, 1, 0, 0, 0]

/-- CRC over the header with `payload_len = 1` plus one payload byte. -/
def c2v : Nat := rc_crc8_calculate [1, 1, 0, 0, 1, c1v]

/-- A valid zero-payload frame crafted so that raising `payload_len`
to 1 by a single bit flip still validates: byte 5 holds the CRC for
length 0 and byte 6 holds the CRC the length-1 frame would need. -/
def flipEvadesFrame : List Nat := [1, 1, 0, 0, 0] ++ [c1v, c2v] ++ List.replicate 25 0

lemma validate_eq_false_of_not (f : List Nat)
    (h : ¬ (f.getD 0 0 = 1 ∧ f.getD 4 0 ≤ 20 ∧
      rc_crc8_calculate (f.take (5 + f.getD 4 0)) = f.getD (5 + f.getD 4 0) 0)) :
    rc_packet_validate f = false := by
  by_cases hval : rc_packet_validate f = true
  · exact absurd ((rc_packet_validate_iff f).mp hval) h
  · simpa using hval

/-- C7 (counterexample): flipping one bit of the `payload_len` header
byte of a carefully built valid frame yields a frame that
`rc_packet_validate` still accepts — the flip moves the checksummed
region and the checksum location, and both positions can be made
consistent in advance because the payload tail of the original frame
is unconstrained. -/
theorem single_bit_flip_can_survive_validate :
    rc_packet_validate flipEvadesFrame = true ∧
    rc_packet_validate (flipBit flipEvadesFrame 4 0) = true := by
  decide

/-- C7 (amended): for every frame accepted by `rc_packet_validate`,
flipping any single bit of the version byte, of the type, sequence or
flags bytes, of a payload byte below `payload_len`, or of the stored
checksum byte at `payload[payload_len]`, yields a frame `validate`
rejects; flipping bits strictly beyond the stored checksum byte never
makes `validate` fail; but a flip inside the `payload_len` byte
itself can escape detection. -/
theorem checksum_sensitivity (f : List Nat) (hlen : f.length = 32) (hB : Bytes f)
    (hval : rc_packet_validate f = true) :
    (∀ k, k < 8 → rc_packet_validate (flipBit f 0 k) = false) ∧
    (∀ i k, k < 8 → i < 5 + f.getD 4 0 → i ≠ 0 → i ≠ 4 →
      rc_packet_validate (flipBit f i k) = false) ∧
    (∀ k, k < 8 → rc_packet_validate (flipBit f (5 + f.getD 4 0) k) = false) ∧
    (∀ i k, 5 + f.getD 4 0 < i → rc_packet_validate (flipBit f i k) = true) := by
  obtain ⟨hv0, hv4, hvc⟩ := (rc_packet_validate_iff f).mp hval
  have hL32 : 5 + f.getD 4 0 < 32 := by omega
  have hxor_ne : ∀ b k : Nat, b ^^^ 2 ^ k ≠ b := by
    intro b k h
    have h2 : b ^^^ 2 ^ k = b ^^^ 0 := by simpa using h
    have h3 : (2 : Nat) ^ k = 0 := Nat.xor_right_inj.mp h2
    exact absurd h3 (Nat.two_pow_pos k).ne'
  refine ⟨?_, ?_, ?_, ?_⟩
  · intro k hk
    apply validate_eq_false_of_not
    rintro ⟨h0, -, -⟩
    rw [flipBit, getD_set_self f _ 0 (by omega)] at h0
    rw [hv0] at h0
    exact hxor_ne 1 k h0
  · intro i k hk hi hi0 hi4
    apply validate_eq_false_of_not
    rintro ⟨-, -, hc⟩
    rw [flipBit] at hc
    rw [getD_set_ne f _ 0 hi4] at hc
    rw [getD_set_ne f _ 0 (by omega : i ≠ 5 + f.getD 4 0)] at hc
    rw [List.set_take] at hc
    have hbyte : f.getD i 0 < 256 := bytes_getD hB (by omega)
    have hb' : f.getD i 0 ^^^ 2 ^ k < 256 :=
      xor_lt_256 hbyte (by calc (2 : Nat) ^ k ≤ 2 ^ 7 := Nat.pow_le_pow_right (by norm_num) (by omega)
        _ < 256 := by norm_num)
    have htl : (f.take (5 + f.getD 4 0)).length = 5 + f.getD 4 0 := by
      rw [List.length_take, hlen]
      omega
    have hne : rc_crc8_calculate ((f.take (5 + f.getD 4 0)).set i (f.getD i 0 ^^^ 2 ^ k)) ≠
        rc_crc8_calculate (f.take (5 + f.getD 4 0)) := by
      apply rc_crc8_set_ne _ i (bytes_take hB _) (by omega) hb'
      rw [getD_take f 0 hi]
      exact hxor_ne _ k
    exact hne (hc.trans hvc.symm)
  · intro k hk
    apply validate_eq_false_of_not
    rintro ⟨-, -, hc⟩
    rw [flipBit] at hc
    rw [getD_set_ne f _ 0 (by omega : 5 + f.getD 4 0 ≠ 4)] at hc
    rw [List.set_take] at hc
    have htl : (f.take (5 + f.getD 4 0)).length = 5 + f.getD 4 0 := by
      rw [List.length_take, hlen]
      omega
    rw [List.set_eq_of_length_le (le_of_eq htl)] at hc
    rw [getD_set_self f _ 0 (by omega)] at hc
    rw [hvc] at hc
    exact hxor_ne _ k hc.symm
  · intro i k hi
    have hi0 : i ≠ 0 := by omega
    have hi4 : i ≠ 4 := by omega
    apply (rc_packet_validate_iff _).mpr
    rw [flipBit]
    rw [getD_set_ne f _ 0 hi0]
    rw [getD_set_ne f _ 0 hi4]
    refine ⟨hv0, hv4, ?_⟩
    rw [getD_set_ne f _ 0 (by omega : i ≠ 5 + f.getD 4 0)]
    rw [List.set_take]
    have htl : (f.take (5 + f.getD 4 0)).length = 5 + f.getD 4 0 := by
      rw [List.length_take, hlen]
      omega
    rw [List.set_eq_of_length_le (by omega)]
    exact hvc

/-- A codec-valid command frame (checksum stored directly after the
18-byte payload, as `rc_encode_payload` lays it out). -/
def codecFrame : List Nat := rc_encode_payload RC_PKT_COMMAND (List.replicate 18 7) 18 0

/-- C7 witness: on a concrete valid frame, flipping bit 3 of payload
byte 1 makes validate fail, while flipping a bit in the unused tail
(byte 30, beyond the checksum at byte 23) leaves it accepted. -/
theorem checksum_sensitivity_witness :
    rc_packet_validate (flipBit codecFrame 6 3) = false ∧
    rc_packet_validate (flipBit codecFrame 30 5) = true := by
  have h := checksum_sensitivity codecFrame (by decide) (by decide) (by decide)
  exact ⟨h.2.1 6 3 (by decide) (by decide) (by decide) (by decide),
    h.2.2.2 30 5 (by decide)⟩

end NrfRcLink
